import Mathlib

/-!
# deadman: login verification and remediation

A shallow embedding of `main.go`.  Go strings and byte slices are lists of
bytes.  Every call that leaves the process (a subprocess, a file operation, a
request to the messaging backend) appends an `Effect` to the trace of the
system state `Sys`; what the outside world answers is read from an `Env`.
`int` is the 64-bit Go `int`.  Log output is not part of the model.
-/

namespace Deadman

/-- A Go `string` or `[]byte`: a sequence of bytes. -/
abbrev Bytes := List UInt8

/-- The bytes of a Go string literal (Go source text is UTF-8). -/
def utf8 (s : String) : Bytes := s.toList.flatMap String.utf8EncodeChar

/-- The errors the program builds, one constructor per `fmt.Errorf` site or
error passed on unchanged; `cause` is the wrapped `%v` argument. -/
inductive Err where
  /-- Error `failed to generate SSH key: %v` (line 49) -/
  | sshKeygen
  /-- Error `failed to read private key: %v` (line 55) -/
  | readPrivateKey
  /-- Error `failed to read public key: %v` (line 61) -/
  | readPublicKey
  /-- the error of `rand.Int`, returned unchanged (line 84) -/
  | randSource
  /-- Error `failed to generate password: %v` (line 108) -/
  | generatePassword (cause : Err)
  /-- Error `failed to find user home directory: %v` (line 114) -/
  | lookupUser
  /-- Error `failed to create .ssh directory: %v` (line 120) -/
  | mkdirSSH
  /-- Error `failed to open authorized_keys: %v` (line 135) -/
  | openAuthorizedKeys
  /-- Error `failed to lock down user: %v` (line 188) -/
  | lockdown (cause : Err)
  /-- the error of `cmd.Run()` on the wipe shell command (line 220) -/
  | shellExit
  /-- Error `Telegram API key not provided at build time` (line 229) -/
  | noAPIKey
  /-- Error `Telegram Chat ID not provided at build time` (line 233) -/
  | noChatID
  /-- Error `invalid chat ID: %v` (line 239) -/
  | invalidChatID
  /-- Error `error initializing Telegram bot: %v` (line 254) -/
  | botInit
  /-- Error `error sending message: %v` (line 303) -/
  | sendMessage
  /-- Error `failed to execute security action: %v` (line 351) -/
  | securityAction (cause : Err)
  /-- Error `failed to execute security action after timeout: %v` (line 385) -/
  | securityActionAfterTimeout (cause : Err)
  deriving DecidableEq, Repr

/-- How a Go function call ends: with a value and a nil error, with a non-nil
error, or with a run-time panic (index out of range, nil dereference). -/
inductive Res (α : Type) where
  | ok (a : α)
  | err (e : Err)
  | panic
  deriving DecidableEq, Repr

/-! ## Credential generation -/

/-- The constant `charset` of `generateRandomPassword` (line 77). -/
def charset : Bytes :=
  utf8 "abcdefghijklmnopqrstuvwxyzABCDEFGHIJKLMNOPQRSTUVWXYZ0123456789!@#$%^&*()-_=+,./<>?"

/-- The loop of `generateRandomPassword` (lines 81-87) with `remaining`
iterations to go at index `i`.  `rand k` is what the `k`-th call of
`rand.Int(rand.Reader, charsetLength)` returns: `none` for an error, `some n`
for the number `n`.  `charset[n]` out of range is a run-time panic. -/
def passwordLoop (rand : Nat → Option Nat) : Nat → Nat → Bytes → Res Bytes
  | 0, _, password => .ok password
  | remaining + 1, i, password =>
    match rand i with
    | none => .err .randSource
    | some n =>
      match charset[n]? with
      | none => .panic
      | some c => passwordLoop rand remaining (i + 1) (password.set i c)

/-- Go `generateRandomPassword` (lines 72-90). -/
def generateRandomPassword (rand : Nat → Option Nat) (length : Int) : Res Bytes :=
  let length := if length < 8 then 16 else length
  passwordLoop rand length.toNat 0 (List.replicate length.toNat 0)

/-! ## Number parsing (`strconv`) -/

/-- The two kinds of `strconv.NumError`: `ErrSyntax` and `ErrRange`. -/
inductive NumError where
  | invalid
  | outOfRange
  deriving DecidableEq, Repr

/-- The pair `(value, error)` returned by the `strconv` parsers. -/
structure Parsed where
  val : Int
  err : Option NumError
  deriving DecidableEq, Repr

/-- The digit loop of `strconv.ParseUint(s, 10, 64)`: a byte other than
`0`..`9` is a syntax error with value 0, a value above `2^64 - 1` is a range
error with value `2^64 - 1`. -/
def parseUintLoop : Bytes → Nat → Nat × Option NumError
  | [], n => (n, none)
  | c :: cs, n =>
    if 48 ≤ c.toNat ∧ c.toNat ≤ 57 then
      if n ≥ (2 ^ 64 - 1) / 10 + 1 then (2 ^ 64 - 1, some .outOfRange)
      else
        let n1 := n * 10 + (c.toNat - 48)
        if n1 > 2 ^ 64 - 1 then (2 ^ 64 - 1, some .outOfRange)
        else parseUintLoop cs n1
    else (0, some .invalid)

/-- Go `strconv.ParseUint(s, 10, 64)`. -/
def ParseUint (s : Bytes) : Nat × Option NumError :=
  if s = [] then (0, some .invalid) else parseUintLoop s 0

/-- Go `strconv.ParseInt(s, 10, 64)`: an optional sign, then `ParseUint`; a
value outside the `int64` range is a range error with the nearest bound. -/
def ParseInt (s : Bytes) : Parsed :=
  match s with
  | [] => ⟨0, some .invalid⟩
  | c :: rest =>
    let neg := c == 45
    let digits := if c == 43 || c == 45 then rest else s
    let (un, err) := ParseUint digits
    if err = some .invalid then ⟨0, some .invalid⟩
    else if !neg && un ≥ 2 ^ 63 then ⟨2 ^ 63 - 1, some .outOfRange⟩
    else if neg && un > 2 ^ 63 then ⟨-(2 ^ 63), some .outOfRange⟩
    else ⟨if neg then -(un : Int) else (un : Int), none⟩

/-- Go `strconv.Atoi(s)`, which is `ParseInt(s, 10, 0)` with a 64-bit `int`. -/
def Atoi (s : Bytes) : Parsed := ParseInt s

/-- The variable `timeoutSeconds` of `SendLoginVerification` (lines 242-249). -/
def timeoutSeconds (timeoutSecondsStr : Bytes) : Int :=
  if timeoutSecondsStr ≠ [] then
    let parsed := Atoi timeoutSecondsStr
    if parsed.err = none ∧ parsed.val > 0 then parsed.val else 120
  else 120

/-- A mathematical integer as the `int64` it wraps to. -/
def wrapInt64 (x : Int) : Int := (x + 2 ^ 63) % 2 ^ 64 - 2 ^ 63

/-- The duration handed to `context.WithTimeout` (line 307),
`time.Duration(timeoutSeconds)*time.Second`, in nanoseconds: `time.Duration`
is an `int64` and `time.Second` is `1000000000`. -/
def timeoutDuration (timeoutSecondsStr : Bytes) : Int :=
  wrapInt64 (timeoutSeconds timeoutSecondsStr * 1000000000)

/-! ## The outside world -/

/-- A file path, given by the elements that `filepath.Join` puts together
(a single element is the path itself). -/
abbrev Path := List Bytes

/-- One call that leaves the process, in the order the program makes them. -/
inductive Effect where
  /-- Call `ssh-keygen -t ed25519 -f privateKeyPath -N "" -C comment` -/
  | sshKeygen (privateKeyPath comment : Bytes)
  /-- Call `os.ReadFile(path)` -/
  | readFile (path : Path)
  /-- Call `os.Remove(path)` -/
  | removeFile (path : Path)
  /-- Call `user.Lookup(username)` -/
  | lookupUser (username : Bytes)
  /-- Call `os.MkdirAll(path, 0700)` -/
  | mkdirAll (path : Path)
  /-- Call `os.Stat(path)` -/
  | stat (path : Path)
  /-- Call `os.OpenFile(path, O_APPEND|O_CREATE|O_WRONLY, 0600)` -/
  | openAppend (path : Path)
  /-- Call `f.Write(data)` on the opened authorized_keys file -/
  | write (data : Bytes)
  /-- Call `f.Close()` -/
  | close
  /-- Call `chown -R owner dir` -/
  | chown (owner : Bytes) (dir : Path)
  /-- Call `chpasswd` with `stdin` on its standard input -/
  | chpasswd (stdin : Bytes)
  /-- Call `pkill -u username` -/
  | pkill (username : Bytes)
  /-- Call `usermod -L username` -/
  | usermodLock (username : Bytes)
  /-- Call `sudo userdel -r username` -/
  | userdel (username : Bytes)
  /-- Call `whoami` -/
  | whoami
  /-- Call `sh -c "curl -s ifconfig.me"` -/
  | curlIP
  /-- Call `tgbotapi.NewBotAPI(token)` -/
  | newBotAPI (token : Bytes)
  /-- Call `bot.Send` of a `NewMessage(chatID, text)` with the given `ParseMode`,
  `keyboard` telling whether the Yes/No inline keyboard is attached -/
  | sendMessage (chatID : Int) (text : Bytes) (parseMode : Bytes) (keyboard : Bool)
  /-- Call `bot.Request(tgbotapi.NewCallback(id, ""))` -/
  | answerCallback (id : Bytes)
  /-- Call `bot.Send(tgbotapi.NewDeleteMessage(chatID, messageID))` -/
  | deleteMessage (chatID : Int) (messageID : Int)
  /-- Call `bot.GetUpdatesChan(updateConfig)` -/
  | getUpdates
  deriving DecidableEq, Repr

/-- The state the program acts on: the content of the account's
`authorized_keys` file (`none` while the file does not exist) and the calls
made so far. -/
structure Sys where
  authorizedKeys : Option Bytes
  trace : List Effect
  deriving DecidableEq, Repr

/-- Record one call. -/
def Sys.log (s : Sys) (e : Effect) : Sys :=
  { s with trace := s.trace ++ [e] }

/-- A successful `os.OpenFile` with `O_CREATE`: the file exists afterwards. -/
def Sys.create (s : Sys) : Sys :=
  { s with authorizedKeys := some (s.authorizedKeys.getD []) }

/-- One `f.Write(data)` on a file opened with `O_APPEND`: the bytes go to the
end of the file.  `fault = none` is a complete write; `fault = some n` is a
write that fails after `n` bytes. -/
def Sys.write (s : Sys) (fault : Option Nat) (data : Bytes) : Sys :=
  { authorizedKeys := some (s.authorizedKeys.getD [] ++
      (match fault with
       | none => data
       | some n => data.take n)),
    trace := s.trace ++ [.write data] }

/-- The `CallbackQuery` of an update: its `ID`, the `MessageID` of its
`Message` (`none` when the `Message` pointer is nil) and its `Data`. -/
structure CallbackQuery where
  id : Bytes
  message : Option Int
  data : Bytes
  deriving DecidableEq, Repr

/-- A `tgbotapi.Update`; `callbackQuery = none` is a nil `CallbackQuery`
pointer (an update that is not a button press). -/
structure Update where
  callbackQuery : Option CallbackQuery
  deriving DecidableEq, Repr

/-- The package-level variables of `main.go` that the program reads: the
build-time strings and the command-line flags.  (`destructiveDefault` is
declared in the source and never read.) -/
structure Globals where
  telegramAPIKey : Bytes
  telegramChatIDStr : Bytes
  timeoutSecondsStr : Bytes
  testMode : Bool
  loginType : Bytes
  destructive : Bool
  deriving DecidableEq, Repr

/-- What the outside world answers during one run. -/
structure Env where
  /-- Result of `time.Now().Format("20060102-150405")` in `generateSSHKey` -/
  keyStamp : Bytes
  /-- whether `ssh-keygen` exits with status 0 -/
  sshKeygenOk : Bool
  /-- Result of `os.ReadFile` of the private key file, `none` for an error -/
  readPrivateKey : Option Bytes
  /-- Result of `os.ReadFile` of the public key file, `none` for an error -/
  readPublicKey : Option Bytes
  /-- the `k`-th call of `rand.Int`: `none` for an error -/
  rand : Nat → Option Nat
  /-- Result of `user.Lookup`: the home directory, `none` for an error -/
  lookupHomeDir : Option Bytes
  /-- whether `os.MkdirAll` succeeds -/
  mkdirAllOk : Bool
  /-- Whether `os.Stat` of authorized_keys fails although the file exists -/
  statFault : Bool
  /-- Result of `os.ReadFile` of authorized_keys: `none` returns the whole content,
  `some p` fails and returns the part `p` read so far -/
  readFault : Option Bytes
  /-- whether `os.OpenFile` of authorized_keys succeeds -/
  openOk : Bool
  /-- fault of the write of the separating newline (line 140) -/
  newlineWriteFault : Option Nat
  /-- fault of the write of the marker line (line 142) -/
  markerWriteFault : Option Nat
  /-- fault of the write of the public key (line 143) -/
  keyWriteFault : Option Nat
  /-- whether `pkill -u` exits with status 0 (it exits with 1 when no process
  matched) -/
  pkillOk : Bool
  /-- whether `sudo userdel -r` exits with status 0 -/
  userdelOk : Bool
  /-- what `sh -c script` does for a script outside the modelled shell
  grammar: the calls it makes and whether it exits with status 0 -/
  shell : Bytes → List Effect × Bool
  /-- whether `NewBotAPI` in `handleSecurityAction` succeeds -/
  credentialBotOk : Bool
  /-- whether `NewBotAPI` in `SendLoginVerification` succeeds -/
  botOk : Bool
  /-- Result of `os.Hostname()`, the empty string on error -/
  hostname : Bytes
  /-- Result of `os.Getenv("USER")` -/
  userEnv : Bytes
  /-- the output of `whoami`, `none` for an error -/
  whoami : Option Bytes
  /-- the output of `curl -s ifconfig.me`, `none` for an error -/
  curl : Option Bytes
  /-- Result of `time.Now().Format("2006-01-02 15:04:05 MST")` -/
  currentTime : Bytes
  /-- Result of `bot.Send` of the prompt: the `MessageID` of the sent message, `none`
  for an error -/
  sendPrompt : Option Int
  /-- the updates that the channel `updates` delivers before `ctx.Done()`
  fires, in order -/
  arrivals : List Update

/-! ## Lockdown and wipe -/

/-- Go `generateSSHKey` (lines 39-69): returns the private and the public
key. -/
def generateSSHKey (env : Env) (username : Bytes) (s : Sys) : Res (Bytes × Bytes) × Sys :=
  let privateKeyPath := utf8 "/tmp/recovery_key_" ++ username ++ utf8 "_" ++ env.keyStamp
  let s := s.log (.sshKeygen privateKeyPath
    (utf8 "recovery-key-" ++ username ++ utf8 "-" ++ env.keyStamp))
  if !env.sshKeygenOk then (.err .sshKeygen, s)
  else
    let s := s.log (.readFile [privateKeyPath])
    match env.readPrivateKey with
    | none => (.err .readPrivateKey, s)
    | some privateKey =>
      let s := s.log (.readFile [privateKeyPath ++ utf8 ".pub"])
      match env.readPublicKey with
      | none => (.err .readPublicKey, s)
      | some publicKey =>
        let s := s.log (.removeFile [privateKeyPath])
        let s := s.log (.removeFile [privateKeyPath ++ utf8 ".pub"])
        (.ok (privateKey, publicKey), s)

/-- Go `bytes.HasSuffix`. -/
def HasSuffix (s suffix : Bytes) : Bool := suffix.isSuffixOf s

/-- The marker line written before the recovery key (line 142). -/
def recoveryMarker : Bytes := utf8 "# Recovery key added after suspicious login\n"

/-- Lines 126-130 of `lockdownUser`: `os.Stat` of authorized_keys and, when it
succeeds, `os.ReadFile` with its error dropped.  Returns `existingKeys`. -/
def readExistingKeys (env : Env) (authKeysPath : Path) (s : Sys) : Bytes × Sys :=
  let s := s.log (.stat authKeysPath)
  if s.authorizedKeys.isSome && !env.statFault then
    let s := s.log (.readFile authKeysPath)
    ((match env.readFault with
      | none => s.authorizedKeys.getD []
      | some part => part), s)
  else ([], s)

/-- Lines 138-144 of `lockdownUser`: the writes to the opened file and its
close, all with their errors dropped. -/
def appendRecoveryKey (env : Env) (existingKeys publicKey : Bytes) (s : Sys) : Sys :=
  let s :=
    if existingKeys.length > 0 && !HasSuffix existingKeys (utf8 "\n") then
      s.write env.newlineWriteFault (utf8 "\n")
    else s
  let s := s.write env.markerWriteFault recoveryMarker
  let s := s.write env.keyWriteFault publicKey
  s.log .close

/-- Lines 146-165 of `lockdownUser`: `chown`, `chpasswd`, `pkill` and
`usermod -L`; their results are dropped or only logged. -/
def lockAccount (username password : Bytes) (sshDir : Path) (s : Sys) : Sys :=
  let s := s.log (.chown (username ++ utf8 ":" ++ username) sshDir)
  let s := s.log (.chpasswd (username ++ utf8 ":" ++ password))
  let s := s.log (.pkill username)
  s.log (.usermodLock username)

/-- Go `lockdownUser` (lines 93-168): returns the private key and the
password. -/
def lockdownUser (g : Globals) (env : Env) (username : Bytes) (s : Sys) :
    Res (Bytes × Bytes) × Sys :=
  if g.testMode then (.ok (utf8 "test-ssh-key", utf8 "test-password"), s)
  else
    match generateSSHKey env username s with
    | (.err e, s) => (.err e, s)
    | (.panic, s) => (.panic, s)
    | (.ok (privateKey, publicKey), s) =>
      match generateRandomPassword env.rand 16 with
      | .err e => (.err (.generatePassword e), s)
      | .panic => (.panic, s)
      | .ok password =>
        let s := s.log (.lookupUser username)
        match env.lookupHomeDir with
        | none => (.err .lookupUser, s)
        | some homeDir =>
          let sshDir : Path := [homeDir, utf8 ".ssh"]
          let s := s.log (.mkdirAll sshDir)
          if !env.mkdirAllOk then (.err .mkdirSSH, s)
          else
            let authKeysPath : Path := sshDir ++ [utf8 "authorized_keys"]
            match readExistingKeys env authKeysPath s with
            | (existingKeys, s) =>
              let s := s.log (.openAppend authKeysPath)
              if !env.openOk then (.err .openAuthorizedKeys, s)
              else
                let s := s.create
                let s := appendRecoveryKey env existingKeys publicKey s
                let s := lockAccount username password sshDir s
                (.ok (privateKey, password), s)

/-- The text of the credential message (lines 192-194). -/
def credentialsText (privateKey password : Bytes) : Bytes :=
  let formattedKey := utf8 "```\n" ++ privateKey ++ utf8 "\n```"
  utf8 "🔑 *New SSH Private Key:*\n" ++ formattedKey ++
    utf8 "\n\n🔐 *New Password:*\n`" ++ password ++ utf8 "`"

/-! ### The shell command of the wipe (line 219)

`exec.Command("sh", "-c", script)` hands the shell a string into which the
username is pasted unquoted, so the shell decides which commands run.  The
model interprets the part of the shell grammar below; every other script is
left to `Env.shell`. -/

/-- A token of the modelled shell grammar: a word, `;` or `&&`. -/
inductive Token where
  | word (w : Bytes)
  | semi
  | andIf
  deriving DecidableEq, Repr

/-- The bytes that stand for themselves wherever they occur in a shell word:
ASCII letters, digits, `_`, `.` and `-`. -/
def isWordByte (c : UInt8) : Bool :=
  (48 ≤ c.toNat && c.toNat ≤ 57) || (65 ≤ c.toNat && c.toNat ≤ 90) ||
    (97 ≤ c.toNat && c.toNat ≤ 122) || c == 95 || c == 46 || c == 45

/-- The word collected so far, as a token; nothing when it is empty. -/
def flushWord (cur : Bytes) : List Token :=
  if cur = [] then [] else [.word cur]

/-- Token recognition of the shell on a one-line script made of word bytes,
spaces, `;`, `&&` and `#`: a space ends a word, `;` and `&&` are operators,
`#` at the start of a word opens a comment that runs to the end of the line
and is an ordinary byte inside a word.  `cur` is the word being read, `amp`
tells that one `&` has been read.  Any other byte, and a single `&`, is outside
the modelled grammar (`none`). -/
def tokenize : Bytes → Bytes → Bool → Option (List Token)
  | [], cur, amp => if amp then none else some (flushWord cur)
  | c :: cs, cur, amp =>
    if amp then
      if c == 38 then (tokenize cs [] false).map (fun ts => Token.andIf :: ts) else none
    else if isWordByte c then tokenize cs (cur ++ [c]) false
    else if c == 32 then (tokenize cs [] false).map (fun ts => flushWord cur ++ ts)
    else if c == 59 then
      (tokenize cs [] false).map (fun ts => flushWord cur ++ Token.semi :: ts)
    else if c == 38 then (tokenize cs [] true).map (fun ts => flushWord cur ++ ts)
    else if c == 35 then
      (if cur = [] then some [] else tokenize cs (cur ++ [c]) false)
    else none

/-- One and-or list `cmd && cmd && ...`: its commands as argument vectors.
`argv` is the command being read.  An empty command is a syntax error
(`none`). -/
def parseAndOr : List Token → List Bytes → Option (List (List Bytes))
  | [], argv => if argv = [] then none else some [argv]
  | .word w :: ts, argv => parseAndOr ts (argv ++ [w])
  | .andIf :: ts, argv =>
    if argv = [] then none else (parseAndOr ts []).map (fun cmds => argv :: cmds)
  | .semi :: _, _ => none

/-- A list `andOr ; andOr ; ...` with an optional final `;`.  `seg` holds the
tokens of the and-or list being read. -/
def parseList : List Token → List Token → Option (List (List (List Bytes)))
  | [], seg => if seg = [] then some [] else (parseAndOr seg []).map (fun a => [a])
  | .semi :: ts, seg =>
    if seg = [] then none
    else
      match parseAndOr seg [], parseList ts [] with
      | some a, some rest => some (a :: rest)
      | _, _ => none
  | t :: ts, seg => parseList ts (seg ++ [t])

/-- The two command lines whose effect the model knows. -/
inductive Cmd where
  /-- The command `pkill -u username` -/
  | pkill (username : Bytes)
  /-- The command `sudo userdel -r username` -/
  | userdel (username : Bytes)
  deriving DecidableEq, Repr

/-- The command that an argument vector stands for; `none` for any other
command line. -/
def recognize (argv : List Bytes) : Option Cmd :=
  match argv with
  | [a, b, u] => if a = utf8 "pkill" ∧ b = utf8 "-u" then some (.pkill u) else none
  | [a, b, c, u] =>
    if a = utf8 "sudo" ∧ b = utf8 "userdel" ∧ c = utf8 "-r" then some (.userdel u) else none
  | _ => none

/-- The commands of one and-or list, when the model knows all of them. -/
def recognizeAndOr : List (List Bytes) → Option (List Cmd)
  | [] => some []
  | argv :: rest =>
    match recognize argv, recognizeAndOr rest with
    | some c, some cs => some (c :: cs)
    | _, _ => none

/-- The commands of a whole list, when the model knows all of them. -/
def recognizeList : List (List (List Bytes)) → Option (List (List Cmd))
  | [] => some []
  | andOr :: rest =>
    match recognizeAndOr andOr, recognizeList rest with
    | some a, some more => some (a :: more)
    | _, _ => none

/-- The script as the lists of commands the shell would run, when it lies in
the modelled grammar. -/
def parseScript (script : Bytes) : Option (List (List Cmd)) :=
  match tokenize script [] false with
  | none => none
  | some ts =>
    match parseList ts [] with
    | none => none
    | some prog => recognizeList prog

/-- Run one command: the call it makes and whether it exits with status 0. -/
def runCmd (env : Env) : Cmd → List Effect × Bool
  | .pkill u => ([.pkill u], env.pkillOk)
  | .userdel u => ([.userdel u], env.userdelOk)

/-- Run `cmd && cmd && ...`: stop at the first command that fails; the status
is that of the last command run. -/
def runAndOr (env : Env) : List Cmd → List Effect × Bool
  | [] => ([], true)
  | [c] => runCmd env c
  | c :: cs =>
    let (calls, ok) := runCmd env c
    if ok then
      let (more, ok2) := runAndOr env cs
      (calls ++ more, ok2)
    else (calls, false)

/-- Run `andOr ; andOr ; ...` in order; the status is that of the last one,
`last` when there is none. -/
def runList (env : Env) : List (List Cmd) → Bool → List Effect × Bool
  | [], last => ([], last)
  | a :: rest, _ =>
    let (calls, ok) := runAndOr env a
    let (more, ok2) := runList env rest ok
    (calls ++ more, ok2)

/-- What `sh -c script` does: the calls of its commands in order and whether
the shell exits with status 0. -/
def runShell (env : Env) (script : Bytes) : List Effect × Bool :=
  match parseScript script with
  | some prog => runList env prog true
  | none => env.shell script

/-- Go `handleSecurityAction` (lines 171-222).  The wipe command
`sh -c "pkill -u "+username+" && sudo userdel -r "+username` is recorded as
the calls of the commands that the shell runs for that script. -/
def handleSecurityAction (g : Globals) (env : Env) (username : Bytes) (s : Sys) :
    Res Unit × Sys :=
  if g.testMode then (.ok (), s)
  else if !g.destructive then
    match lockdownUser g env username s with
    | (.err e, s) => (.err (.lockdown e), s)
    | (.panic, s) => (.panic, s)
    | (.ok (privateKey, password), s) =>
      let credentials := credentialsText privateKey password
      let chatID := (ParseInt g.telegramChatIDStr).val
      let s := s.log (.newBotAPI g.telegramAPIKey)
      if env.credentialBotOk then
        let s := s.log (.sendMessage chatID
          (utf8 "🔐 *ACCOUNT RECOVERY CREDENTIALS*\n\nUser account has been locked down. Use these credentials to regain access:")
          (utf8 "Markdown") false)
        let s := s.log (.sendMessage chatID credentials (utf8 "Markdown") false)
        let instructions := utf8 "To use the new SSH key:\n1. Save the key to a file (e.g., recovery_key)\n2. Set permissions: `chmod 600 recovery_key`\n3. Connect: `ssh -i recovery_key " ++ username ++ utf8 "@hostname`"
        let s := s.log (.sendMessage chatID instructions [] false)
        (.ok (), s)
      else (.ok (), s)
  else
    let script := utf8 "pkill -u " ++ username ++ utf8 " && sudo userdel -r " ++ username
    match runShell env script with
    | (calls, ok) =>
      let s := { s with trace := s.trace ++ calls }
      if ok then (.ok (), s) else (.err .shellExit, s)

/-! ## Verification -/

/-- The UTF-8 encodings of the runes for which Go `unicode.IsSpace` holds:
tab, line feed, vertical tab, form feed, carriage return, space, U+0085,
U+00A0, U+1680, U+2000 to U+200A, U+2028, U+2029, U+202F, U+205F and
U+3000. -/
def spaceRunes : List Bytes :=
  [[9], [10], [11], [12], [13], [32], [0xC2, 0x85], [0xC2, 0xA0], [0xE1, 0x9A, 0x80],
    [0xE2, 0x80, 0x80], [0xE2, 0x80, 0x81], [0xE2, 0x80, 0x82], [0xE2, 0x80, 0x83],
    [0xE2, 0x80, 0x84], [0xE2, 0x80, 0x85], [0xE2, 0x80, 0x86], [0xE2, 0x80, 0x87],
    [0xE2, 0x80, 0x88], [0xE2, 0x80, 0x89], [0xE2, 0x80, 0x8A], [0xE2, 0x80, 0xA8],
    [0xE2, 0x80, 0xA9], [0xE2, 0x80, 0xAF], [0xE2, 0x81, 0x9F], [0xE3, 0x80, 0x80]]

/-- The string without its first rune, when that rune is white space. -/
def dropFirstSpace (s : Bytes) : Option Bytes :=
  spaceRunes.findSome? (fun r => if r.isPrefixOf s then some (s.drop r.length) else none)

/-- The string without its last rune, when that rune is white space. -/
def dropLastSpace (s : Bytes) : Option Bytes :=
  spaceRunes.findSome?
    (fun r => if r.isSuffixOf s then some (s.take (s.length - r.length)) else none)

/-- Go `strings.TrimLeftFunc(s, unicode.IsSpace)`; every step removes at least
one byte, so `fuel = len(s)` steps reach the end. -/
def trimLeftSpace : Nat → Bytes → Bytes
  | 0, s => s
  | fuel + 1, s =>
    match dropFirstSpace s with
    | some rest => trimLeftSpace fuel rest
    | none => s

/-- Go `strings.TrimRightFunc(s, unicode.IsSpace)`, with fuel as above. -/
def trimRightSpace : Nat → Bytes → Bytes
  | 0, s => s
  | fuel + 1, s =>
    match dropLastSpace s with
    | some rest => trimRightSpace fuel rest
    | none => s

/-- Go `strings.TrimSpace`: the string without its leading and trailing
Unicode white space. -/
def TrimSpace (s : Bytes) : Bytes :=
  let s := trimLeftSpace s.length s
  trimRightSpace s.length s

/-- Go `strings.ToLower` on ASCII text (its only arguments are the two ASCII
literals of `securityAction`). -/
def ToLower (s : Bytes) : Bytes :=
  s.map (fun c => if 65 ≤ c.toNat ∧ c.toNat ≤ 90 then c + 32 else c)

/-- The variable `securityAction` (lines 318-323). -/
def securityActionText (g : Globals) : Bytes :=
  if g.destructive then utf8 "Wiping user data"
  else utf8 "Locking down account and resetting credentials"

/-- The lines `User: ... Access: ...` shared by the report messages. -/
def eventLines (username hostname currentTime ipInfo accessMethod : Bytes) : Bytes :=
  utf8 "User: " ++ username ++ utf8 "\nHost: " ++ hostname ++ utf8 "\nTime: " ++ currentTime ++
    utf8 "\nIP: " ++ ipInfo ++ utf8 "\nAccess: " ++ accessMethod

/-- The text of the prompt (lines 298-299). -/
def promptText (username hostname currentTime ipInfo accessMethod : Bytes) : Bytes :=
  utf8 "Login detected for user " ++ username ++ utf8 " on " ++ hostname ++ utf8 ".\nTime: " ++
    currentTime ++ utf8 "\nIP: " ++ ipInfo ++ utf8 "\nAccess: " ++ accessMethod ++
    utf8 "\n\nWas this you?"

/-- The text of the alert sent after a "no" (lines 341-346). -/
def notifyText (g : Globals) (username hostname currentTime ipInfo accessMethod : Bytes) : Bytes :=
  utf8 "⚠️ UNAUTHORIZED LOGIN DETECTED ⚠️\n\n" ++
    eventLines username hostname currentTime ipInfo accessMethod ++
    utf8 "\n\n" ++ securityActionText g ++ utf8 "..."

/-- The text of the confirmation sent after a "yes" (lines 356-361). -/
def confirmText (username hostname currentTime ipInfo accessMethod : Bytes) : Bytes :=
  utf8 "✅ LOGIN CONFIRMED AS AUTHORIZED\n\n" ++
    eventLines username hostname currentTime ipInfo accessMethod

/-- The text of the message sent on timeout (lines 374-380). -/
def timeoutText (g : Globals) (username hostname currentTime ipInfo accessMethod : Bytes) : Bytes :=
  utf8 "⚠️ VERIFICATION TIMEOUT (" ++ utf8 (toString (timeoutSeconds g.timeoutSecondsStr)) ++
    utf8 " seconds) ⚠️\n\n" ++
    eventLines username hostname currentTime ipInfo accessMethod ++
    utf8 "\n\nFor security, " ++ ToLower (securityActionText g) ++ utf8 "..."

/-- The variable `username` (lines 259-269): `$USER`, else the trimmed output
of `whoami`, else `unknown`. -/
def loginUsername (env : Env) : Bytes :=
  if env.userEnv = [] then
    (match env.whoami with
     | some userOutput => TrimSpace userOutput
     | none => utf8 "unknown")
  else env.userEnv

/-- The variable `ipInfo` (lines 272-278). -/
def loginIP (env : Env) : Bytes :=
  match env.curl with
  | some ipOutput => TrimSpace ipOutput
  | none => utf8 "unknown location"

/-- The variable `accessMethod` (lines 284-287). -/
def loginAccess (g : Globals) : Bytes :=
  if g.loginType = [] then utf8 "unknown" else g.loginType

/-- Go `SendLoginVerification` (lines 226-391).  The `select` statement runs
once: it takes the first update that the channel delivers before the deadline,
or the deadline when there is none. -/
def SendLoginVerification (g : Globals) (env : Env) (s : Sys) : Res Unit × Sys :=
  if g.telegramAPIKey = [] then (.err .noAPIKey, s)
  else if g.telegramChatIDStr = [] then (.err .noChatID, s)
  else
    let parsedChatID := ParseInt g.telegramChatIDStr
    if parsedChatID.err ≠ none then (.err .invalidChatID, s)
    else
      let telegramChatID := parsedChatID.val
      let s := s.log (.newBotAPI g.telegramAPIKey)
      if !env.botOk then (.err .botInit, s)
      else
        let hostname := env.hostname
        let username := loginUsername env
        let s := if env.userEnv = [] then s.log .whoami else s
        let s := s.log .curlIP
        let ipInfo := loginIP env
        let currentTime := env.currentTime
        let accessMethod := loginAccess g
        let s := s.log (.sendMessage telegramChatID
          (promptText username hostname currentTime ipInfo accessMethod) [] true)
        match env.sendPrompt with
        | none => (.err .sendMessage, s)
        | some sentMsgID =>
          let s := s.log .getUpdates
          match env.arrivals with
          | update :: _ =>
            (match update.callbackQuery with
             | none => (.ok (), s)
             | some callbackQuery =>
               match callbackQuery.message with
               | none => (.panic, s)
               | some messageID =>
                 if messageID = sentMsgID then
                   let s := s.log (.answerCallback callbackQuery.id)
                   let s := s.log (.deleteMessage telegramChatID sentMsgID)
                   if callbackQuery.data = utf8 "no" then
                     let s := s.log (.sendMessage telegramChatID
                       (notifyText g username hostname currentTime ipInfo accessMethod) [] false)
                     match handleSecurityAction g env username s with
                     | (.err e, s) => (.err (.securityAction e), s)
                     | (.panic, s) => (.panic, s)
                     | (.ok _, s) => (.ok (), s)
                   else if callbackQuery.data = utf8 "yes" then
                     let s := s.log (.sendMessage telegramChatID
                       (confirmText username hostname currentTime ipInfo accessMethod) [] false)
                     (.ok (), s)
                   else (.ok (), s)
                 else (.ok (), s))
          | [] =>
            let s := s.log (.deleteMessage telegramChatID sentMsgID)
            let s := s.log (.sendMessage telegramChatID
              (timeoutText g username hostname currentTime ipInfo accessMethod) [] false)
            match handleSecurityAction g env username s with
            | (.err e, s) => (.err (.securityActionAfterTimeout e), s)
            | (.panic, s) => (.panic, s)
            | (.ok _, s) => (.ok (), s)

/-- The calls that change the account: a write to the key store, `chown`,
`chpasswd`, `pkill`, `usermod` and `userdel`. -/
def Effect.mutatesAccount : Effect → Bool
  | .openAppend _ => true
  | .write _ => true
  | .chown _ _ => true
  | .chpasswd _ => true
  | .pkill _ => true
  | .usermodLock _ => true
  | .userdel _ => true
  | _ => false

/-- The calls that send a text message to the operator. -/
def Effect.isMessage : Effect → Bool
  | .sendMessage _ _ _ _ => true
  | _ => false

/-! ## Vocabulary of the theorems -/

/-- The trace of `s1` is the trace of `s` followed by calls that all satisfy
`P`. -/
def Sys.Extends (P : Effect → Prop) (s s1 : Sys) : Prop :=
  ∃ calls : List Effect, s1.trace = s.trace ++ calls ∧ ∀ c ∈ calls, P c

/-- A call that neither sends a message nor changes the account. -/
def Effect.harmless (c : Effect) : Prop := c.isMessage = false ∧ c.mutatesAccount = false

/-- The separator that `appendRecoveryKey` writes before the marker. -/
def separator (existingKeys : Bytes) : Bytes :=
  if existingKeys.length > 0 && !HasSuffix existingKeys (utf8 "\n") then utf8 "\n" else []

/-- A username that the shell reads as one word: not empty and made of word
bytes only. -/
def isShellWord (u : Bytes) : Bool := !u.isEmpty && u.all isWordByte

/-- The bytes that one `f.Write(data)` puts into the file under a fault. -/
def written (fault : Option Nat) (data : Bytes) : Bytes :=
  match fault with
  | none => data
  | some n => data.take n

/-- The file content `content` is the earlier content `E`, then nothing or a
single newline (a newline only when `E` does not end in one), then the line
`# Recovery key added after suspicious login`, then the key `K`. -/
def RecoveryKeyAppended (E K content : Bytes) : Prop :=
  ∃ sep : Bytes,
    content = E ++ sep ++ utf8 "# Recovery key added after suspicious login\n" ++ K ∧
    (sep = [] ∨ sep = utf8 "\n") ∧
    (sep = utf8 "\n" → ¬ ∃ front : Bytes, E = front ++ utf8 "\n")

/-! ## Example inputs -/

/-- An example configuration: lockdown mode, not a test run. -/
def exampleGlobals : Globals :=
  { telegramAPIKey := utf8 "123:token", telegramChatIDStr := utf8 "42", timeoutSecondsStr := [],
    testMode := false, loginType := utf8 "ssh", destructive := false }

/-- The example configuration in wipe mode. -/
def exampleWipe : Globals := { exampleGlobals with destructive := true }

/-- An example world in which every collaborator succeeds and no update
arrives before the deadline. -/
def exampleEnv : Env :=
  { keyStamp := utf8 "20250101-120000", sshKeygenOk := true,
    readPrivateKey := some (utf8 "PRIVATE KEY\n"),
    readPublicKey := some (utf8 "ssh-ed25519 AAAA recovery\n"),
    rand := fun k => some k, lookupHomeDir := some (utf8 "/home/alice"), mkdirAllOk := true,
    statFault := false, readFault := none, openOk := true, newlineWriteFault := none,
    markerWriteFault := none, keyWriteFault := none, pkillOk := true, userdelOk := true,
    shell := fun _ => ([], false),
    credentialBotOk := true, botOk := true, hostname := utf8 "host", userEnv := utf8 "alice",
    whoami := none, curl := some (utf8 "203.0.113.7\n"), currentTime := utf8 "2025-01-01 12:00:00 UTC",
    sendPrompt := some 7, arrivals := [] }

/-- An example state: an authorized_keys file without a final newline. -/
def exampleSys : Sys := { authorizedKeys := some (utf8 "ssh-rsa OLD"), trace := [] }

/-! ## Theorems: credential generation -/

theorem passwordLoop_length (rand : Nat → Option Nat) :
    ∀ (k i : Nat) (pw out : Bytes), passwordLoop rand k i pw = .ok out → out.length = pw.length := by
  intro k
  induction k with
  | zero =>
    intro i pw out h
    simp only [passwordLoop, Res.ok.injEq] at h
    rw [← h]
  | succ k ih =>
    intro i pw out h
    unfold passwordLoop at h
    split at h
    · cases h
    · split at h
      · cases h
      · have := ih _ _ _ h
        simpa using this

theorem passwordLoop_succeeds (rand : Nat → Option Nat) :
    ∀ (k i : Nat) (pw : Bytes),
      (∀ j, i ≤ j → j < i + k → ∃ n, n < charset.length ∧ rand j = some n) →
      ∃ out, passwordLoop rand k i pw = .ok out := by
  intro k
  induction k with
  | zero => intro i pw _; exact ⟨pw, rfl⟩
  | succ k ih =>
    intro i pw h
    obtain ⟨n, hn, hr⟩ := h i (le_refl i) (by omega)
    obtain ⟨out, hout⟩ := ih (i + 1) (pw.set i (charset[n])) (fun j h1 h2 => h j (by omega) (by omega))
    refine ⟨out, ?_⟩
    unfold passwordLoop
    simp only [hr, List.getElem?_eq_getElem hn]
    exact hout

theorem passwordLoop_no_panic (rand : Nat → Option Nat)
    (hr : ∀ i n, rand i = some n → n < charset.length) :
    ∀ (k i : Nat) (pw : Bytes), passwordLoop rand k i pw ≠ .panic := by
  intro k
  induction k with
  | zero => intro i pw h; simp [passwordLoop] at h
  | succ k ih =>
    intro i pw h
    unfold passwordLoop at h
    split at h
    · cases h
    · rename_i n hn
      have hlt := hr i n hn
      simp only [List.getElem?_eq_getElem hlt] at h
      exact ih _ _ h

theorem passwordLoop_charset (rand : Nat → Option Nat) :
    ∀ (k i : Nat) (pw out : Bytes), passwordLoop rand k i pw = .ok out →
      i + k = pw.length →
      (∀ j, j < i → ∀ c, pw[j]? = some c → c ∈ charset) →
      ∀ c ∈ out, c ∈ charset := by
  intro k
  induction k with
  | zero =>
    intro i pw out h hlen hinv c hc
    simp only [passwordLoop, Res.ok.injEq] at h
    subst h
    obtain ⟨j, hj, rfl⟩ := List.mem_iff_getElem.mp hc
    exact hinv j (by omega) _ (List.getElem?_eq_getElem hj)
  | succ k ih =>
    intro i pw out h hlen hinv
    unfold passwordLoop at h
    split at h
    · cases h
    · split at h
      · cases h
      · rename_i n hn ch hch
        apply ih _ _ _ h (by simp; omega)
        intro j hj c hc
        rw [List.getElem?_set] at hc
        split at hc
        · split at hc
          · cases hc
            exact List.getElem?_mem hch
          · cases hc
        · exact hinv j (by omega) c hc

theorem charset_length : charset.length = 82 := by decide

/-- The loop runs to the end, and `generateRandomPassword` returns a password,
whenever the random source answers every call with a number below
`len(charset)`. -/
theorem generateRandomPassword_succeeds (rand : Nat → Option Nat) (length : Int)
    (h : ∀ i, ∃ n, n < charset.length ∧ rand i = some n) :
    ∃ pw, generateRandomPassword rand length = .ok pw :=
  passwordLoop_succeeds rand _ 0 _ (fun j _ _ => h j)

/-- C5: whenever `generateRandomPassword` succeeds, the password has exactly
`length` characters for `length >= 8` and exactly 16 characters for
`length < 8` (zero and negative values included). -/
theorem generateRandomPassword_length (rand : Nat → Option Nat) (length : Int) (pw : Bytes)
    (h : generateRandomPassword rand length = .ok pw) :
    (8 ≤ length → (pw.length : Int) = length) ∧ (length < 8 → pw.length = 16) := by
  unfold generateRandomPassword at h
  have hlen := passwordLoop_length rand _ _ _ _ h
  rw [List.length_replicate] at hlen
  constructor
  · intro h8
    rw [hlen, if_neg (by omega)]
    omega
  · intro h8
    rw [hlen, if_pos h8]
    rfl

theorem generateRandomPassword_length_witness :
    generateRandomPassword (fun _ => some 0) (-3) = .ok (List.replicate 16 97) ∧
      (((8 : Int) ≤ -3 → ((List.replicate 16 (97 : UInt8)).length : Int) = -3) ∧
        ((-3 : Int) < 8 → (List.replicate 16 (97 : UInt8)).length = 16)) :=
  ⟨by decide, generateRandomPassword_length (fun _ => some 0) (-3) _ (by decide)⟩

/-- C6: when every value of the random source is below `len(charset)`, the
index `charset[n]` is never out of range (no panic), and every character of a
returned password is a member of `charset`. -/
theorem generateRandomPassword_charset (rand : Nat → Option Nat) (length : Int)
    (hr : ∀ i n, rand i = some n → n < charset.length) :
    generateRandomPassword rand length ≠ .panic ∧
      ∀ pw, generateRandomPassword rand length = .ok pw → ∀ c ∈ pw, c ∈ charset := by
  constructor
  · exact passwordLoop_no_panic rand hr _ _ _
  · intro pw h
    unfold generateRandomPassword at h
    exact passwordLoop_charset rand _ 0 _ pw h (by simp) (fun j hj => absurd hj (Nat.not_lt_zero j))

theorem generateRandomPassword_charset_witness :
    (∀ i n, (fun _ : Nat => some 5) i = some n → n < charset.length) ∧
      generateRandomPassword (fun _ => some 5) 9 ≠ .panic ∧
      ∀ pw, generateRandomPassword (fun _ => some 5) 9 = .ok pw → ∀ c ∈ pw, c ∈ charset :=
  ⟨fun _ n h => by cases h; decide,
    generateRandomPassword_charset (fun _ => some 5) 9 (fun _ n h => by cases h; decide)⟩

/-! ## Theorems: timeout, wipe and lockdown -/

/-- The variable `timeoutSeconds` is always positive: it is 120 when the
configured string is empty, does not parse, or parses to a value `<= 0`, and
the parsed value when that is positive. -/
theorem timeoutSeconds_pos (str : Bytes) :
    0 < timeoutSeconds str ∧
      ((str = [] ∨ (Atoi str).err ≠ none ∨ (Atoi str).val ≤ 0) → timeoutSeconds str = 120) ∧
      (((Atoi str).err = none ∧ 0 < (Atoi str).val) → timeoutSeconds str = (Atoi str).val) := by
  by_cases hs : str = []
  · subst hs
    refine ⟨by decide, fun _ => by decide, fun h => ?_⟩
    exact absurd h.1 (by decide)
  · have key : timeoutSeconds str =
        if (Atoi str).err = none ∧ (Atoi str).val > 0 then (Atoi str).val else 120 := by
      unfold timeoutSeconds
      rw [if_pos hs]
    by_cases hp : (Atoi str).err = none ∧ (Atoi str).val > 0
    · rw [key, if_pos hp]
      refine ⟨hp.2, fun h => ?_, fun _ => rfl⟩
      rcases h with h | h | h
      · exact absurd h hs
      · exact absurd hp.1 h
      · have := hp.2
        omega
    · rw [key, if_neg hp]
      exact ⟨by decide, fun _ => rfl, fun h => absurd h hp⟩

/-- C10: the configured string `9223372037` parses to the positive
`timeoutSeconds = 9223372037`, and the duration that `context.WithTimeout`
receives, `time.Duration(timeoutSeconds)*time.Second`, wraps to a negative
`int64`: the wait is not 9223372037 seconds and not positive. -/
theorem timeout_overflow :
    timeoutSeconds (utf8 "9223372037") = 9223372037 ∧
      timeoutDuration (utf8 "9223372037") = -9223372036709551616 ∧
      timeoutDuration (utf8 "9223372037") < 0 := by
  decide

/-- The duration is the configured number of seconds as long as that number is
at most 9223372036. -/
theorem timeoutDuration_in_range (str : Bytes) (h : timeoutSeconds str ≤ 9223372036) :
    timeoutDuration str = timeoutSeconds str * 1000000000 ∧ 0 < timeoutDuration str := by
  have hpos := (timeoutSeconds_pos str).1
  have h1 : 0 ≤ timeoutSeconds str * 1000000000 + 2 ^ 63 := by omega
  have h2 : timeoutSeconds str * 1000000000 + 2 ^ 63 < 2 ^ 64 := by omega
  unfold timeoutDuration wrapInt64
  rw [Int.emod_eq_of_lt h1 h2]
  constructor <;> omega

/-- Word bytes are collected into the word being read. -/
theorem tokenize_word (w : Bytes) (hw : ∀ c ∈ w, isWordByte c = true) :
    ∀ (rest cur : Bytes), tokenize (w ++ rest) cur false = tokenize rest (cur ++ w) false := by
  induction w with
  | nil => intro rest cur; simp
  | cons c w ih =>
    intro rest cur
    have hc : isWordByte c = true := hw c (List.mem_cons_self _ _)
    have hw2 : ∀ d ∈ w, isWordByte d = true := fun d hd => hw d (List.mem_cons_of_mem _ hd)
    rw [List.cons_append, tokenize]
    simp only [Bool.false_eq_true, if_false, hc, if_true]
    rw [ih hw2]
    simp

/-- A space ends the word being read. -/
theorem tokenize_space (rest cur : Bytes) :
    tokenize (32 :: rest) cur false =
      (tokenize rest [] false).map (fun ts => flushWord cur ++ ts) := by
  rw [tokenize]
  simp only [Bool.false_eq_true, if_false]
  rw [if_neg (by decide), if_pos (by decide)]

/-- Two `&` in a row end the word being read and give the operator `&&`. -/
theorem tokenize_andIf (rest cur : Bytes) :
    tokenize (38 :: 38 :: rest) cur false =
      (tokenize rest [] false).map (fun ts => flushWord cur ++ Token.andIf :: ts) := by
  rw [tokenize]
  simp only [Bool.false_eq_true, if_false]
  rw [if_neg (by decide), if_neg (by decide), if_neg (by decide), if_pos (by decide), tokenize]
  simp only [if_true]
  rw [if_pos (by decide)]
  cases tokenize rest [] false <;> simp

/-- The tokens of the wipe script for a username that is one shell word. -/
theorem wipe_script_tokens (u : Bytes) (hu : isShellWord u = true) :
    tokenize (utf8 "pkill -u " ++ u ++ utf8 " && sudo userdel -r " ++ u) [] false =
      some [Token.word (utf8 "pkill"), Token.word (utf8 "-u"), Token.word u, Token.andIf,
        Token.word (utf8 "sudo"), Token.word (utf8 "userdel"), Token.word (utf8 "-r"),
        Token.word u] := by
  have hne : u ≠ [] := by
    intro h
    subst h
    simp [isShellWord] at hu
  have hw : ∀ c ∈ u, isWordByte c = true := by
    intro c hc
    simp only [isShellWord, Bool.and_eq_true, List.all_eq_true] at hu
    exact hu.2 c hc
  have h1 : utf8 "pkill -u " = utf8 "pkill" ++ (32 :: (utf8 "-u" ++ [32])) := by decide
  have h2 : utf8 " && sudo userdel -r " =
      32 :: 38 :: 38 :: 32 :: (utf8 "sudo" ++ (32 :: (utf8 "userdel" ++ (32 :: (utf8 "-r" ++ [32]))))) := by
    decide
  have w1 : ∀ c ∈ utf8 "pkill", isWordByte c = true := by decide
  have w2 : ∀ c ∈ utf8 "-u", isWordByte c = true := by decide
  have w3 : ∀ c ∈ utf8 "sudo", isWordByte c = true := by decide
  have w4 : ∀ c ∈ utf8 "userdel", isWordByte c = true := by decide
  have w5 : ∀ c ∈ utf8 "-r", isWordByte c = true := by decide
  have e1 : utf8 "pkill" ≠ [] := by decide
  have e2 : utf8 "-u" ≠ [] := by decide
  have e3 : utf8 "sudo" ≠ [] := by decide
  have e4 : utf8 "userdel" ≠ [] := by decide
  have e5 : utf8 "-r" ≠ [] := by decide
  have hend : tokenize u [] false = some [Token.word u] := by
    have := tokenize_word u hw [] []
    simp only [List.append_nil, List.nil_append] at this
    rw [this, tokenize]
    simp [flushWord, hne]
  rw [h1, h2]
  simp only [List.append_assoc, List.cons_append, List.nil_append]
  rw [tokenize_word _ w1, tokenize_space, tokenize_word _ w2, tokenize_space, tokenize_word u hw,
    tokenize_space, tokenize_andIf, tokenize_space, tokenize_word _ w3, tokenize_space,
    tokenize_word _ w4, tokenize_space, tokenize_word _ w5, tokenize_space, hend]
  simp [flushWord, hne, e1, e2, e3, e4, e5]

/-- For a username that is one shell word the wipe script is the single
and-or list `pkill -u username && sudo userdel -r username`. -/
theorem wipe_script_parse (u : Bytes) (hu : isShellWord u = true) :
    parseScript (utf8 "pkill -u " ++ u ++ utf8 " && sudo userdel -r " ++ u) =
      some [[Cmd.pkill u, Cmd.userdel u]] := by
  unfold parseScript
  rw [wipe_script_tokens u hu]
  simp [parseList, parseAndOr, recognize, recognizeAndOr, recognizeList]

/-- For a username that is one shell word the shell runs `pkill`, and `userdel`
after it when `pkill` succeeded. -/
theorem runShell_word (env : Env) (u : Bytes) (hu : isShellWord u = true) :
    runShell env (utf8 "pkill -u " ++ u ++ utf8 " && sudo userdel -r " ++ u) =
      if env.pkillOk then ([Effect.pkill u, Effect.userdel u], env.userdelOk)
      else ([Effect.pkill u], false) := by
  unfold runShell
  rw [wipe_script_parse u hu]
  simp only [runList, runAndOr, runCmd]
  cases env.pkillOk <;> simp

/-- In wipe mode, for a username that is one shell word, the calls are `pkill`,
followed by `userdel` when `pkill` succeeded. -/
theorem wipe_trace (g : Globals) (env : Env) (username : Bytes) (s : Sys)
    (ht : g.testMode = false) (hd : g.destructive = true)
    (hu : isShellWord username = true) :
    (handleSecurityAction g env username s).2.trace =
      s.trace ++ (if env.pkillOk then [Effect.pkill username, Effect.userdel username]
        else [Effect.pkill username]) := by
  unfold handleSecurityAction
  simp only [ht, hd]
  rw [runShell_word env username hu]
  cases env.pkillOk <;> cases env.userdelOk <;> simp

/-- In wipe mode (destructive, not a test run), for a username that is one
shell word, every `userdel` call that `handleSecurityAction` makes comes after
a `pkill` call for the same username in the recorded order of calls. -/
theorem wipe_kills_before_delete (g : Globals) (env : Env) (username : Bytes) (s : Sys)
    (ht : g.testMode = false) (hd : g.destructive = true)
    (hu : isShellWord username = true) :
    ∃ calls : List Effect, (handleSecurityAction g env username s).2.trace = s.trace ++ calls ∧
      ∀ (i : Nat) (u : Bytes), calls[i]? = some (Effect.userdel u) →
        ∃ j : Nat, j < i ∧ calls[j]? = some (Effect.pkill u) := by
  have htr := wipe_trace g env username s ht hd hu
  cases hp : env.pkillOk
  · rw [hp] at htr
    refine ⟨[Effect.pkill username], by simpa using htr, ?_⟩
    intro i u h
    rcases i with _ | i
    · simp at h
    · simp at h
  · rw [hp] at htr
    refine ⟨[Effect.pkill username, Effect.userdel username], by simpa using htr, ?_⟩
    intro i u h
    rcases i with _ | _ | i
    · simp at h
    · simp at h
      exact ⟨0, by omega, by simp [h]⟩
    · simp at h

/-- C8: with the username `x; sudo userdel -r bob #` the shell command of the
wipe runs `pkill -u x` and then `sudo userdel -r bob`: the account `bob` is
deleted although no `pkill` for `bob` was run (here `pkill -u x` even failed),
and `handleSecurityAction` returns nil. -/
theorem wipe_deletes_other_account :
    handleSecurityAction exampleWipe { exampleEnv with pkillOk := false }
        (utf8 "x; sudo userdel -r bob #") exampleSys =
      (.ok (),
        { authorizedKeys := exampleSys.authorizedKeys,
          trace := [Effect.pkill (utf8 "x"), Effect.userdel (utf8 "bob")] }) ∧
    Effect.pkill (utf8 "bob") ∉
      (handleSecurityAction exampleWipe { exampleEnv with pkillOk := false }
        (utf8 "x; sudo userdel -r bob #") exampleSys).2.trace ∧
    Effect.pkill (utf8 "x; sudo userdel -r bob #") ∉
      (handleSecurityAction exampleWipe { exampleEnv with pkillOk := false }
        (utf8 "x; sudo userdel -r bob #") exampleSys).2.trace := by
  decide

theorem Sys.Extends.refl (P : Effect → Prop) (s : Sys) : Sys.Extends P s s :=
  ⟨[], by simp, by simp⟩

theorem Sys.Extends.log {P : Effect → Prop} {s s1 : Sys} (h : Sys.Extends P s s1)
    (e : Effect) (he : P e) : Sys.Extends P s (s1.log e) := by
  obtain ⟨calls, htr, hc⟩ := h
  refine ⟨calls ++ [e], by simp [Sys.log, htr], ?_⟩
  intro c hmem
  rcases List.mem_append.mp hmem with h1 | h1
  · exact hc c h1
  · simp at h1
    subst h1
    exact he

/-- The calls of `generateSSHKey` send no message and leave the account as it
is, and `generateSSHKey` does not panic. -/
theorem generateSSHKey_calls (env : Env) (username : Bytes) (s : Sys) :
    (generateSSHKey env username s).1 ≠ .panic ∧
    (generateSSHKey env username s).2.authorizedKeys = s.authorizedKeys ∧
    Sys.Extends Effect.harmless s (generateSSHKey env username s).2 := by
  unfold generateSSHKey
  cases env.sshKeygenOk
  · exact ⟨by simp, rfl, (Sys.Extends.refl _ s).log _ ⟨rfl, rfl⟩⟩
  · cases env.readPrivateKey with
    | none =>
      exact ⟨by simp, rfl, ((Sys.Extends.refl _ s).log _ ⟨rfl, rfl⟩).log _ ⟨rfl, rfl⟩⟩
    | some priv =>
      cases env.readPublicKey with
      | none =>
        exact ⟨by simp, rfl,
          (((Sys.Extends.refl _ s).log _ ⟨rfl, rfl⟩).log _ ⟨rfl, rfl⟩).log _ ⟨rfl, rfl⟩⟩
      | some pub =>
        exact ⟨by simp, rfl,
          (((((Sys.Extends.refl _ s).log _ ⟨rfl, rfl⟩).log _ ⟨rfl, rfl⟩).log _ ⟨rfl, rfl⟩).log _
            ⟨rfl, rfl⟩).log _ ⟨rfl, rfl⟩⟩

/-- C3: in lockdown mode (not destructive, not a test run), when
`generateSSHKey` or `generateRandomPassword` fails, `handleSecurityAction`
returns an error, the authorized_keys file is unchanged, and none of its calls
sends a message or changes the account (no write to authorized_keys, `chown`,
`chpasswd`, `pkill`, `usermod` or `userdel`). -/
theorem lockdown_generation_failure (g : Globals) (env : Env) (username : Bytes) (s : Sys)
    (ht : g.testMode = false) (hd : g.destructive = false)
    (hfail : (∃ e, (generateSSHKey env username s).1 = .err e) ∨
      (∃ e, generateRandomPassword env.rand 16 = .err e)) :
    (∃ e, (handleSecurityAction g env username s).1 = .err e) ∧
    (handleSecurityAction g env username s).2.authorizedKeys = s.authorizedKeys ∧
    ∃ calls : List Effect, (handleSecurityAction g env username s).2.trace = s.trace ++ calls ∧
      ∀ c ∈ calls, c.isMessage = false ∧ c.mutatesAccount = false := by
  obtain ⟨hnp, hfile, hext⟩ := generateSSHKey_calls env username s
  unfold handleSecurityAction lockdownUser
  simp only [ht, hd]
  rcases hk : generateSSHKey env username s with ⟨r, s1⟩
  rw [hk] at hnp hfile hext
  cases r with
  | err e => exact ⟨⟨_, rfl⟩, hfile, hext⟩
  | panic => exact absurd rfl hnp
  | ok keys =>
    obtain ⟨privateKey, publicKey⟩ := keys
    rcases hfail with ⟨e, he⟩ | ⟨e, he⟩
    · rw [hk] at he
      cases he
    · simp only [he]
      exact ⟨⟨_, rfl⟩, hfile, hext⟩

theorem lockdown_generation_failure_witness :
    (∃ e, (handleSecurityAction exampleGlobals { exampleEnv with rand := fun _ => none }
        (utf8 "alice") exampleSys).1 = .err e) ∧
    (handleSecurityAction exampleGlobals { exampleEnv with rand := fun _ => none }
        (utf8 "alice") exampleSys).2.authorizedKeys = exampleSys.authorizedKeys ∧
    ∃ calls : List Effect,
      (handleSecurityAction exampleGlobals { exampleEnv with rand := fun _ => none }
        (utf8 "alice") exampleSys).2.trace = exampleSys.trace ++ calls ∧
      ∀ c ∈ calls, c.isMessage = false ∧ c.mutatesAccount = false :=
  lockdown_generation_failure exampleGlobals { exampleEnv with rand := fun _ => none }
    (utf8 "alice") exampleSys rfl rfl (Or.inr ⟨Err.randSource, by decide⟩)

/-! ## Theorems: the authorized_keys append -/

/-- The test `HasSuffix s suffix` holds exactly when `s` ends with `suffix`. -/
theorem HasSuffix_iff (s suffix : Bytes) :
    HasSuffix s suffix = true ↔ ∃ front : Bytes, s = front ++ suffix := by
  unfold HasSuffix
  rw [List.isSuffixOf_iff_suffix]
  constructor
  · rintro ⟨front, h⟩
    exact ⟨front, h.symm⟩
  · rintro ⟨front, h⟩
    exact ⟨front, h.symm⟩

@[simp] theorem Sys.log_authorizedKeys (s : Sys) (e : Effect) :
    (s.log e).authorizedKeys = s.authorizedKeys := rfl

@[simp] theorem Sys.create_authorizedKeys (s : Sys) :
    s.create.authorizedKeys = some (s.authorizedKeys.getD []) := rfl

@[simp] theorem Sys.write_authorizedKeys (s : Sys) (fault : Option Nat) (data : Bytes) :
    (s.write fault data).authorizedKeys =
      some (s.authorizedKeys.getD [] ++ written fault data) := by
  cases fault <;> rfl

theorem written_newline (fault : Option Nat) :
    written fault (utf8 "\n") = [] ∨ written fault (utf8 "\n") = utf8 "\n" := by
  have hnl : utf8 "\n" = [10] := by decide
  rw [hnl]
  cases fault with
  | none => exact Or.inr rfl
  | some n =>
    cases n with
    | zero => exact Or.inl rfl
    | succ n => exact Or.inr (by simp [written])

@[simp] theorem lockAccount_authorizedKeys (username password : Bytes) (sshDir : Path) (s : Sys) :
    (lockAccount username password sshDir s).authorizedKeys = s.authorizedKeys := rfl

theorem readExistingKeys_authorizedKeys (env : Env) (path : Path) (s : Sys) :
    (readExistingKeys env path s).2.authorizedKeys = s.authorizedKeys := by
  unfold readExistingKeys
  simp only [Sys.log_authorizedKeys]
  split <;> rfl

theorem readExistingKeys_value (env : Env) (path : Path) (s : Sys)
    (hread : env.readFault = none) :
    (readExistingKeys env path s).1 =
      if s.authorizedKeys.isSome && !env.statFault then s.authorizedKeys.getD [] else [] := by
  unfold readExistingKeys
  simp only [Sys.log_authorizedKeys, hread]
  split <;> rfl

theorem appendRecoveryKey_authorizedKeys (env : Env) (existingKeys publicKey : Bytes) (s : Sys)
    (hw2 : env.markerWriteFault = none) (hw3 : env.keyWriteFault = none) :
    ∃ sep : Bytes,
      (appendRecoveryKey env existingKeys publicKey s).authorizedKeys =
        some (s.authorizedKeys.getD [] ++ sep ++
          utf8 "# Recovery key added after suspicious login\n" ++ publicKey) ∧
      (sep = [] ∨ sep = separator existingKeys) ∧
      (env.newlineWriteFault = none → sep = separator existingKeys) := by
  unfold appendRecoveryKey separator recoveryMarker
  simp only [hw2, hw3, Sys.log_authorizedKeys, Sys.write_authorizedKeys, written]
  by_cases hc : (decide (existingKeys.length > 0) && !HasSuffix existingKeys (utf8 "\n")) = true
  · simp only [hc, if_true, Sys.write_authorizedKeys, Option.getD_some]
    rcases written_newline env.newlineWriteFault with h | h
    · refine ⟨[], ?_, Or.inl rfl, ?_⟩
      · rw [h]
      · intro hn
        rw [hn] at h
        exact absurd h (by decide)
    · refine ⟨utf8 "\n", ?_, Or.inr rfl, fun _ => rfl⟩
      rw [h]
  · simp only [hc, Bool.false_eq_true, if_false]
    exact ⟨[], by simp, Or.inl rfl, fun _ => rfl⟩

/-- The separator is empty or one newline; it is a newline exactly when the
existing keys are not empty and do not end in a newline. -/
theorem separator_cases (existingKeys : Bytes) :
    (separator existingKeys = [] ∨ separator existingKeys = utf8 "\n") ∧
    (separator existingKeys = utf8 "\n" → ¬ ∃ front : Bytes, existingKeys = front ++ utf8 "\n") ∧
    (existingKeys ≠ [] → (¬ ∃ front : Bytes, existingKeys = front ++ utf8 "\n") →
      separator existingKeys = utf8 "\n") := by
  by_cases hs : HasSuffix existingKeys (utf8 "\n") = true
  · have hex := (HasSuffix_iff _ _).mp hs
    have hsep : separator existingKeys = [] := by simp [separator, hs]
    rw [hsep]
    exact ⟨Or.inl rfl, fun h => absurd h (by decide), fun _ h => absurd hex h⟩
  · have hnex : ¬ ∃ front : Bytes, existingKeys = front ++ utf8 "\n" :=
      fun h => hs ((HasSuffix_iff _ _).mpr h)
    by_cases hl : existingKeys = []
    · subst hl
      exact ⟨Or.inl rfl, fun h => absurd h (by decide), fun h _ => absurd rfl h⟩
    · have hpos : existingKeys.length > 0 := List.length_pos.mpr hl
      have hsep : separator existingKeys = utf8 "\n" := by simp [separator, hs, hpos]
      rw [hsep]
      exact ⟨Or.inr rfl, fun _ => hnex, fun _ _ => rfl⟩

/-- C4 (as amended): when `lockdownUser` returns credentials, the read of the
existing file was complete and the writes of the marker line and of the key
succeeded, the authorized_keys file holds its earlier content `E`, then
nothing or a single newline (a newline only when `E` does not end in one), then
the line `# Recovery key added after suspicious login`, then the public key
`K`.  When moreover the file was read, the write of the newline succeeded and
`E` is not empty and lacks the final newline, the newline is there; when `E` is
empty the content is the marker line and the key. -/
theorem lockdownUser_append (g : Globals) (env : Env) (username : Bytes) (s : Sys)
    (E K : Bytes) (creds : Bytes × Bytes)
    (ht : g.testMode = false)
    (hE : s.authorizedKeys.getD [] = E)
    (hK : env.readPublicKey = some K)
    (hread : env.readFault = none)
    (hw2 : env.markerWriteFault = none)
    (hw3 : env.keyWriteFault = none)
    (hok : (lockdownUser g env username s).1 = .ok creds) :
    ∃ content : Bytes,
      (lockdownUser g env username s).2.authorizedKeys = some content ∧
      RecoveryKeyAppended E K content ∧
      (env.statFault = false → env.newlineWriteFault = none → E ≠ [] →
        (¬ ∃ front : Bytes, E = front ++ utf8 "\n") →
        content = E ++ utf8 "\n" ++ utf8 "# Recovery key added after suspicious login\n" ++ K) ∧
      (E = [] → content = utf8 "# Recovery key added after suspicious login\n" ++ K) := by
  obtain ⟨hnp, hfile, -⟩ := generateSSHKey_calls env username s
  have hpub : ∀ priv pub s1, generateSSHKey env username s = (.ok (priv, pub), s1) → pub = K := by
    intro priv pub s1 h
    unfold generateSSHKey at h
    simp only [hK] at h
    split at h
    · cases h
    · split at h
      · cases h
      · simp only [Prod.mk.injEq, Res.ok.injEq] at h
        exact h.1.2.symm
  unfold lockdownUser at hok ⊢
  simp only [ht, Bool.false_eq_true, if_false] at hok ⊢
  rcases hk : generateSSHKey env username s with ⟨r, s1⟩
  rw [hk] at hfile
  have hfile1 : s1.authorizedKeys = s.authorizedKeys := hfile
  simp only [hk] at hok ⊢
  rcases r with ⟨privateKey, publicKey⟩ | e | _
  rotate_left
  · simp at hok
  · simp at hok
  have hKK := hpub _ _ _ hk
  subst hKK
  simp only at hok ⊢
  cases hpw : generateRandomPassword env.rand 16 <;> simp only [hpw] at hok ⊢
  rotate_left
  · simp at hok
  · simp at hok
  cases hlk : env.lookupHomeDir <;> simp only [hlk] at hok ⊢
  · simp at hok
  cases hmk : env.mkdirAllOk <;> simp only [hmk] at hok ⊢
  · simp at hok
  cases hop : env.openOk <;> simp only [hop] at hok ⊢
  · simp at hok
  clear hok
  simp only [Bool.not_true, Bool.false_eq_true, if_false, lockAccount_authorizedKeys]
  obtain ⟨sep, hcontent, hsep, hsepnone⟩ := appendRecoveryKey_authorizedKeys env
    (readExistingKeys env [_, utf8 ".ssh", utf8 "authorized_keys"]
      ((s1.log (Effect.lookupUser username)).log (Effect.mkdirAll [_, utf8 ".ssh"]))).1
    publicKey
    ((readExistingKeys env [_, utf8 ".ssh", utf8 "authorized_keys"]
      ((s1.log (Effect.lookupUser username)).log (Effect.mkdirAll [_, utf8 ".ssh"]))).2.log
        (Effect.openAppend [_, utf8 ".ssh", utf8 "authorized_keys"])).create hw2 hw3
  rw [readExistingKeys_value _ _ _ hread] at hsep hsepnone
  simp only [Sys.create_authorizedKeys, Sys.log_authorizedKeys, readExistingKeys_authorizedKeys,
    Option.getD_some, hfile1, hE] at hcontent hsep hsepnone
  refine ⟨_, hcontent, ?_, ?_, ?_⟩
  · obtain ⟨h1, h2, -⟩ := separator_cases E
    cases hst : (s.authorizedKeys.isSome && !env.statFault)
    · rw [hst] at hsep
      have hnil : sep = [] := by
        rcases hsep with h | h
        · exact h
        · simpa [separator] using h
      exact ⟨sep, rfl, Or.inl hnil, fun h => absurd (hnil.symm.trans h) (by decide)⟩
    · rw [hst] at hsep
      simp only [if_true] at hsep
      rcases hsep with h | h
      · exact ⟨sep, rfl, Or.inl h, fun h2 => absurd (h.symm.trans h2) (by decide)⟩
      · rw [h]
        exact ⟨separator E, rfl, h1, h2⟩
  · intro hsf hw1 hne hends
    have hst : (s.authorizedKeys.isSome && !env.statFault) = true := by
      rw [hsf]
      cases hs : s.authorizedKeys with
      | none => rw [hs] at hE; exact absurd hE.symm hne
      | some c => rfl
    have hs := hsepnone hw1
    rw [hst] at hs
    simp only [if_true] at hs
    rw [hs, (separator_cases E).2.2 hne hends]
  · intro hnil
    have hsepnil : sep = [] := by
      rcases hsep with h | h
      · exact h
      · rw [h, hnil]
        simp [separator]
    rw [hsepnil, hnil]
    rfl

theorem lockdownUser_append_witness :
    ∃ content : Bytes,
      (lockdownUser exampleGlobals exampleEnv (utf8 "alice") exampleSys).2.authorizedKeys =
        some content ∧
      RecoveryKeyAppended (utf8 "ssh-rsa OLD") (utf8 "ssh-ed25519 AAAA recovery\n") content ∧
      (exampleEnv.statFault = false → exampleEnv.newlineWriteFault = none →
        utf8 "ssh-rsa OLD" ≠ [] →
        (¬ ∃ front : Bytes, utf8 "ssh-rsa OLD" = front ++ utf8 "\n") →
        content = utf8 "ssh-rsa OLD" ++ utf8 "\n" ++
          utf8 "# Recovery key added after suspicious login\n" ++
          utf8 "ssh-ed25519 AAAA recovery\n") ∧
      (utf8 "ssh-rsa OLD" = [] →
        content = utf8 "# Recovery key added after suspicious login\n" ++
          utf8 "ssh-ed25519 AAAA recovery\n") :=
  lockdownUser_append exampleGlobals exampleEnv (utf8 "alice") exampleSys (utf8 "ssh-rsa OLD")
    (utf8 "ssh-ed25519 AAAA recovery\n") (utf8 "PRIVATE KEY\n", utf8 "abcdefghijklmnop")
    rfl rfl rfl rfl rfl rfl (by decide)

set_option maxRecDepth 100000 in
/-- C4 (as stated) fails in three worlds in which `lockdownUser` returns the
credentials.  A read of the existing file that stops after `ssh-rsa A` puts a
newline after content that already ends in one.  A failed write of the marker
line leaves no marker before the key.  A failed write of the key leaves no key
after the marker. -/
theorem lockdownUser_append_faults :
    ((lockdownUser exampleGlobals { exampleEnv with readFault := some (utf8 "ssh-rsa A") }
        (utf8 "alice") { exampleSys with authorizedKeys := some (utf8 "ssh-rsa A\nssh-rsa B\n") }).1 =
        .ok (utf8 "PRIVATE KEY\n", utf8 "abcdefghijklmnop") ∧
      (lockdownUser exampleGlobals { exampleEnv with readFault := some (utf8 "ssh-rsa A") }
        (utf8 "alice")
        { exampleSys with authorizedKeys := some (utf8 "ssh-rsa A\nssh-rsa B\n") }).2.authorizedKeys =
        some (utf8 "ssh-rsa A\nssh-rsa B\n\n# Recovery key added after suspicious login\nssh-ed25519 AAAA recovery\n") ∧
      ¬ RecoveryKeyAppended (utf8 "ssh-rsa A\nssh-rsa B\n") (utf8 "ssh-ed25519 AAAA recovery\n")
        (utf8 "ssh-rsa A\nssh-rsa B\n\n# Recovery key added after suspicious login\nssh-ed25519 AAAA recovery\n")) ∧
    ((lockdownUser exampleGlobals { exampleEnv with markerWriteFault := some 0 } (utf8 "alice")
        exampleSys).1 = .ok (utf8 "PRIVATE KEY\n", utf8 "abcdefghijklmnop") ∧
      (lockdownUser exampleGlobals { exampleEnv with markerWriteFault := some 0 } (utf8 "alice")
        exampleSys).2.authorizedKeys = some (utf8 "ssh-rsa OLD\nssh-ed25519 AAAA recovery\n") ∧
      ¬ RecoveryKeyAppended (utf8 "ssh-rsa OLD") (utf8 "ssh-ed25519 AAAA recovery\n")
        (utf8 "ssh-rsa OLD\nssh-ed25519 AAAA recovery\n")) ∧
    ((lockdownUser exampleGlobals { exampleEnv with keyWriteFault := some 0 } (utf8 "alice")
        exampleSys).1 = .ok (utf8 "PRIVATE KEY\n", utf8 "abcdefghijklmnop") ∧
      (lockdownUser exampleGlobals { exampleEnv with keyWriteFault := some 0 } (utf8 "alice")
        exampleSys).2.authorizedKeys =
        some (utf8 "ssh-rsa OLD\n# Recovery key added after suspicious login\n") ∧
      ¬ RecoveryKeyAppended (utf8 "ssh-rsa OLD") (utf8 "ssh-ed25519 AAAA recovery\n")
        (utf8 "ssh-rsa OLD\n# Recovery key added after suspicious login\n")) := by
  refine ⟨⟨by decide, by decide, ?_⟩, ⟨by decide, by decide, ?_⟩, ⟨by decide, by decide, ?_⟩⟩
  · rintro ⟨sep, hc, hs | hs, hn⟩
    · subst hs
      exact absurd hc (by decide)
    · exact hn hs ⟨utf8 "ssh-rsa A\nssh-rsa B", by decide⟩
  · rintro ⟨sep, hc, hs | hs, -⟩
    · subst hs
      exact absurd hc (by decide)
    · subst hs
      exact absurd hc (by decide)
  · rintro ⟨sep, hc, hs | hs, -⟩
    · subst hs
      exact absurd hc (by decide)
    · subst hs
      exact absurd hc (by decide)

/-- C9: a world in which the write of the public key fails (no byte written):
`lockdownUser` still returns the credentials, authorized_keys holds the marker
and no key, `chpasswd`, `pkill` and `usermod -L` still run, and
`handleSecurityAction` returns nil. -/
theorem lockdownUser_key_write_fails :
    (lockdownUser exampleGlobals { exampleEnv with keyWriteFault := some 0 } (utf8 "alice")
        exampleSys).1 = .ok (utf8 "PRIVATE KEY\n", utf8 "abcdefghijklmnop") ∧
    (lockdownUser exampleGlobals { exampleEnv with keyWriteFault := some 0 } (utf8 "alice")
        exampleSys).2.authorizedKeys =
      some (utf8 "ssh-rsa OLD\n# Recovery key added after suspicious login\n") ∧
    (lockdownUser exampleGlobals { exampleEnv with keyWriteFault := some 0 } (utf8 "alice")
        exampleSys).2.trace.drop 10 =
      [Effect.write (utf8 "\n"), Effect.write recoveryMarker,
        Effect.write (utf8 "ssh-ed25519 AAAA recovery\n"), Effect.close,
        Effect.chown (utf8 "alice:alice") [utf8 "/home/alice", utf8 ".ssh"],
        Effect.chpasswd (utf8 "alice:abcdefghijklmnop"), Effect.pkill (utf8 "alice"),
        Effect.usermodLock (utf8 "alice")] ∧
    (handleSecurityAction exampleGlobals { exampleEnv with keyWriteFault := some 0 } (utf8 "alice")
        exampleSys).1 = .ok () := by
  decide

/-- C7: in wipe mode with a `pkill` that fails (no active session),
`handleSecurityAction` returns the error of the shell and never runs `userdel`,
although `userdel` would have succeeded. -/
theorem wipe_without_sessions :
    handleSecurityAction exampleWipe { exampleEnv with pkillOk := false } (utf8 "alice") exampleSys =
      (.err .shellExit,
        { authorizedKeys := exampleSys.authorizedKeys, trace := [Effect.pkill (utf8 "alice")] }) := by
  decide

set_option maxRecDepth 100000 in
/-- C1: when the first update is not a button press, `SendLoginVerification`
returns nil at once: its last call is `GetUpdatesChan` and no call changes the
account, while the same run without that update ends in the timeout branch
with `pkill` and `userdel`. -/
theorem stray_update_ends_wait :
    (SendLoginVerification exampleWipe { exampleEnv with arrivals := [⟨none⟩] } exampleSys).1 =
      .ok () ∧
    (∀ c ∈ (SendLoginVerification exampleWipe { exampleEnv with arrivals := [⟨none⟩] }
        exampleSys).2.trace, c.mutatesAccount = false) ∧
    (SendLoginVerification exampleWipe { exampleEnv with arrivals := [⟨none⟩] }
        exampleSys).2.trace.getLast? = some Effect.getUpdates ∧
    (SendLoginVerification exampleWipe exampleEnv exampleSys).2.trace.drop 4 =
      [Effect.deleteMessage 42 7,
        Effect.sendMessage 42 (timeoutText exampleWipe (utf8 "alice") (utf8 "host")
          (utf8 "2025-01-01 12:00:00 UTC") (utf8 "203.0.113.7") (utf8 "ssh")) [] false,
        Effect.pkill (utf8 "alice"), Effect.userdel (utf8 "alice")] := by
  decide

/-! ## Theorems: verification -/

/-- The payloads `yes` and `no` differ. -/
theorem yes_ne_no : utf8 "yes" ≠ utf8 "no" := by decide

/-- C2: when the first update is a callback for the sent prompt with payload
`yes`, `SendLoginVerification` returns nil, the authorized_keys file is
unchanged, the calls after `GetUpdatesChan` are the callback answer, the
deletion of the prompt and the confirmation message, and no call of the run
changes the account. -/
theorem confirmed_no_remediation (g : Globals) (env : Env) (s : Sys) (update : Update)
    (rest : List Update) (callbackQuery : CallbackQuery) (sentMsgID : Int)
    (hkey : g.telegramAPIKey ≠ []) (hchat : g.telegramChatIDStr ≠ [])
    (hparse : (ParseInt g.telegramChatIDStr).err = none)
    (hbot : env.botOk = true) (hsent : env.sendPrompt = some sentMsgID)
    (harr : env.arrivals = update :: rest)
    (hcq : update.callbackQuery = some callbackQuery)
    (hmsg : callbackQuery.message = some sentMsgID)
    (hyes : callbackQuery.data = utf8 "yes") :
    (SendLoginVerification g env s).1 = .ok () ∧
    (SendLoginVerification g env s).2.authorizedKeys = s.authorizedKeys ∧
    (SendLoginVerification g env s).2.trace =
      s.trace ++ [Effect.newBotAPI g.telegramAPIKey] ++
        (if env.userEnv = [] then [Effect.whoami] else []) ++
        [Effect.curlIP,
          Effect.sendMessage (ParseInt g.telegramChatIDStr).val
            (promptText (loginUsername env) env.hostname env.currentTime (loginIP env)
              (loginAccess g)) [] true,
          Effect.getUpdates,
          Effect.answerCallback callbackQuery.id,
          Effect.deleteMessage (ParseInt g.telegramChatIDStr).val sentMsgID,
          Effect.sendMessage (ParseInt g.telegramChatIDStr).val
            (confirmText (loginUsername env) env.hostname env.currentTime (loginIP env)
              (loginAccess g)) [] false] ∧
    ∀ c ∈ (SendLoginVerification g env s).2.trace.drop s.trace.length,
      c.mutatesAccount = false := by
  have htrace : (SendLoginVerification g env s) =
      (.ok (), { authorizedKeys := s.authorizedKeys,
                 trace := s.trace ++ [Effect.newBotAPI g.telegramAPIKey] ++
        (if env.userEnv = [] then [Effect.whoami] else []) ++
        [Effect.curlIP,
          Effect.sendMessage (ParseInt g.telegramChatIDStr).val
            (promptText (loginUsername env) env.hostname env.currentTime (loginIP env)
              (loginAccess g)) [] true,
          Effect.getUpdates,
          Effect.answerCallback callbackQuery.id,
          Effect.deleteMessage (ParseInt g.telegramChatIDStr).val sentMsgID,
          Effect.sendMessage (ParseInt g.telegramChatIDStr).val
            (confirmText (loginUsername env) env.hostname env.currentTime (loginIP env)
              (loginAccess g)) [] false] }) := by
    unfold SendLoginVerification
    simp only [hkey, hchat, hparse, hbot, hsent, harr, hcq, hmsg, hyes, yes_ne_no, if_false,
      if_true, ne_eq, not_true_eq_false, Bool.not_true, Bool.false_eq_true, Sys.log]
    by_cases hu : env.userEnv = [] <;> simp [hu]
  rw [htrace]
  refine ⟨rfl, rfl, rfl, ?_⟩
  intro c hc
  simp only [List.append_assoc, List.drop_left] at hc
  by_cases hu : env.userEnv = []
  · simp only [hu, if_true] at hc
    simp at hc
    rcases hc with rfl | rfl | rfl | rfl | rfl | rfl | rfl | rfl <;> rfl
  · simp only [hu, if_false] at hc
    simp at hc
    rcases hc with rfl | rfl | rfl | rfl | rfl | rfl | rfl <;> rfl

theorem confirmed_no_remediation_witness :
    (SendLoginVerification exampleGlobals
        { exampleEnv with arrivals := [⟨some ⟨utf8 "cb1", some 7, utf8 "yes"⟩⟩] } exampleSys).1 =
      .ok () :=
  (confirmed_no_remediation exampleGlobals
    { exampleEnv with arrivals := [⟨some ⟨utf8 "cb1", some 7, utf8 "yes"⟩⟩] } exampleSys
    ⟨some ⟨utf8 "cb1", some 7, utf8 "yes"⟩⟩ [] ⟨utf8 "cb1", some 7, utf8 "yes"⟩ 7
    (by decide) (by decide) (by decide) rfl rfl rfl rfl rfl rfl).1

/-- An update that is not a button press ends `SendLoginVerification` at once
with a nil error: nothing is called after `GetUpdatesChan`. -/
theorem SendLoginVerification_stray_update (g : Globals) (env : Env) (s : Sys) (update : Update)
    (rest : List Update) (sentMsgID : Int)
    (hkey : g.telegramAPIKey ≠ []) (hchat : g.telegramChatIDStr ≠ [])
    (hparse : (ParseInt g.telegramChatIDStr).err = none)
    (hbot : env.botOk = true) (hsent : env.sendPrompt = some sentMsgID)
    (harr : env.arrivals = update :: rest)
    (hcq : update.callbackQuery = none) :
    (SendLoginVerification g env s).1 = .ok () ∧
    (SendLoginVerification g env s).2.authorizedKeys = s.authorizedKeys ∧
    (SendLoginVerification g env s).2.trace =
      s.trace ++ [Effect.newBotAPI g.telegramAPIKey] ++
        (if env.userEnv = [] then [Effect.whoami] else []) ++
        [Effect.curlIP,
          Effect.sendMessage (ParseInt g.telegramChatIDStr).val
            (promptText (loginUsername env) env.hostname env.currentTime (loginIP env)
              (loginAccess g)) [] true,
          Effect.getUpdates] := by
  unfold SendLoginVerification
  simp only [hkey, hchat, hparse, hbot, hsent, harr, hcq, if_false,
    if_true, ne_eq, not_true_eq_false, Bool.not_true, Bool.false_eq_true, Sys.log]
  by_cases hu : env.userEnv = [] <;> simp [hu]

/-- A callback for another message ends `SendLoginVerification` at once with a
nil error as well. -/
theorem SendLoginVerification_other_message (g : Globals) (env : Env) (s : Sys) (update : Update)
    (rest : List Update) (callbackQuery : CallbackQuery) (sentMsgID messageID : Int)
    (hkey : g.telegramAPIKey ≠ []) (hchat : g.telegramChatIDStr ≠ [])
    (hparse : (ParseInt g.telegramChatIDStr).err = none)
    (hbot : env.botOk = true) (hsent : env.sendPrompt = some sentMsgID)
    (harr : env.arrivals = update :: rest)
    (hcq : update.callbackQuery = some callbackQuery)
    (hmsg : callbackQuery.message = some messageID) (hne : messageID ≠ sentMsgID) :
    (SendLoginVerification g env s).1 = .ok () ∧
    (SendLoginVerification g env s).2.authorizedKeys = s.authorizedKeys ∧
    (SendLoginVerification g env s).2.trace =
      s.trace ++ [Effect.newBotAPI g.telegramAPIKey] ++
        (if env.userEnv = [] then [Effect.whoami] else []) ++
        [Effect.curlIP,
          Effect.sendMessage (ParseInt g.telegramChatIDStr).val
            (promptText (loginUsername env) env.hostname env.currentTime (loginIP env)
              (loginAccess g)) [] true,
          Effect.getUpdates] := by
  unfold SendLoginVerification
  simp only [hkey, hchat, hparse, hbot, hsent, harr, hcq, hmsg, hne, if_false,
    if_true, ne_eq, not_true_eq_false, Bool.not_true, Bool.false_eq_true, Sys.log]
  by_cases hu : env.userEnv = [] <;> simp [hu]

/-- In wipe mode, for a username that is one shell word, a failed `pkill` ends
the shell command: `userdel` is not run and the error is returned, whatever
`userdel` would have done. -/
theorem wipe_stops_after_failed_kill (g : Globals) (env : Env) (username : Bytes) (s : Sys)
    (ht : g.testMode = false) (hd : g.destructive = true) (hp : env.pkillOk = false)
    (hu : isShellWord username = true) :
    handleSecurityAction g env username s = (.err .shellExit, s.log (.pkill username)) := by
  unfold handleSecurityAction
  simp only [ht, hd]
  rw [runShell_word env username hu]
  simp [hp, Sys.log]

/-- In wipe mode, for a username that is one shell word, the result after a
successful `pkill` is that of `userdel`. -/
theorem wipe_result_after_kill (g : Globals) (env : Env) (username : Bytes) (s : Sys)
    (ht : g.testMode = false) (hd : g.destructive = true) (hp : env.pkillOk = true)
    (hu : isShellWord username = true) :
    (handleSecurityAction g env username s).1 =
      if env.userdelOk then .ok () else .err .shellExit := by
  unfold handleSecurityAction
  simp only [ht, hd]
  rw [runShell_word env username hu]
  cases env.userdelOk <;> simp [hp]

/-- The value `lockdownUser` returns does not depend on how the writes to
authorized_keys end. -/
theorem lockdownUser_ignores_write_faults (g : Globals) (env : Env) (username : Bytes) (s : Sys)
    (f1 f2 f3 : Option Nat) :
    (lockdownUser g
        { env with newlineWriteFault := f1, markerWriteFault := f2, keyWriteFault := f3 }
        username s).1 = (lockdownUser g env username s).1 := by
  unfold lockdownUser generateSSHKey
  simp only
  cases g.testMode <;> simp only [Bool.false_eq_true, if_false, if_true]
  cases env.sshKeygenOk <;> simp only [Bool.not_false, Bool.not_true, Bool.false_eq_true,
    if_false, if_true]
  cases env.readPrivateKey <;> simp only
  cases env.readPublicKey <;> simp only
  cases generateRandomPassword env.rand 16 <;> simp only
  cases env.lookupHomeDir <;> simp only
  cases env.mkdirAllOk <;> simp only [Bool.not_false, Bool.not_true, Bool.false_eq_true,
    if_false, if_true]
  cases env.openOk <;> simp only [Bool.not_false, Bool.not_true, Bool.false_eq_true,
    if_false, if_true]

end Deadman
